import Mathlib

/-!
# Verification of the Zen-AI-Fax backend (`src/app.js`)

A shallow embedding of the Express backend in `src/app.js`: the multer
disk-storage filename transform, the `POST /upload` orchestration flow and the
`GET /document/:id` read flow, over an explicit relational store.  The database
helpers (`services/db.js`), blob helper (`services/azureBlob.js`) and analyzer
(`services/analyzer.js`) are not part of the sources; the store operations are
modelled from the specification (section 4.2), and the blob upload / analyzer
calls are treated as external calls whose outcomes are parameters of a request.

Stateful code becomes explicit state passing: a request is a pure function from
the environment, the external-call outcomes and the current state (store rows
plus the set of files on disk) to an HTTP result and the next state.
-/

namespace ZenAI

/-- One extracted key/value field, as produced by analysis
(spec section 3, `ExtractedField`). -/
structure ExtractedField where
  name : String
  value : String
deriving Repr, DecidableEq

/-- One row of the `documents` table (spec section 3, `Document`). -/
structure Document where
  id : String
  filename : String
  blob_url : String
  status : String
  document_type : Option String
  confidence : Option Rat
deriving Repr, DecidableEq

/-- An analyzer result `{documentType, confidence, fields}`; each property can
be absent from the returned object (`app.js` reads them with `||` defaults). -/
structure Analysis where
  documentType : Option String
  confidence : Option Rat
  fields : Option (List ExtractedField)
deriving Repr, DecidableEq

/-- The relational store: the `documents` table and the extracted-field rows,
each field row tagged with the id of the document it belongs to. -/
structure Store where
  documents : List Document
  fields : List (String × ExtractedField)
deriving Repr, DecidableEq

/-- JavaScript `x || null` on an optional string property: `undefined`, `null`
and the empty string are falsy, so they all become `null`
(`analysis.documentType || null`, `app.js` line 92). -/
def jsOrNullStr : Option String → Option String
  | none => none
  | some s => if s = "" then none else some s

/-- JavaScript `x || null` on an optional numeric property: an absent value and
the number `0` are falsy, so both become `null`
(`analysis.confidence || null`, `app.js` line 92). -/
def jsOrNullNum : Option Rat → Option Rat
  | none => none
  | some q => if q = 0 then none else some q

/-- Modelled from the spec: `db.insertDocument(id, filename, blob_url, status)`
(`services/db.js` is not in the sources) — "creates one row; fails if id
already exists" (spec section 4.2).  `none` is the failure. -/
def insertDocument (s : Store) (d : Document) : Option Store :=
  if s.documents.any (fun x => x.id = d.id) then none
  else some { s with documents := s.documents ++ [d] }

/-- Modelled from the spec: `db.getDocument(id)` — "returns one row or an
explicit not-found signal" (spec section 4.2). -/
def getDocument (s : Store) (id : String) : Option Document :=
  s.documents.find? (fun d => d.id = id)

/-- Modelled from the spec: `db.getFields(id)` — "returns all field rows for
the document (possibly empty)" (spec section 4.2). -/
def getFields (s : Store) (id : String) : List ExtractedField :=
  (s.fields.filter (fun p => p.1 = id)).map (fun p => p.2)

/-- Modelled from the spec: `db.saveExtractedFields(id, fields[])` — "inserts
one row per field; no-op if the list is empty" (spec section 4.2). -/
def saveExtractedFields (s : Store) (id : String) (fs : List ExtractedField) :
    Store :=
  { s with fields := s.fields ++ fs.map (fun f => (id, f)) }

/-- Modelled from the spec: `db.updateDocumentStatus(id, status, documentType,
confidence)` — "updates the three columns on the existing row; fails
(store-error) if the row does not exist" (spec section 4.2). -/
def updateDocumentStatus (s : Store) (id status : String) (dt : Option String)
    (c : Option Rat) : Option Store :=
  if s.documents.any (fun d => d.id = id) then
    some { s with documents := s.documents.map (fun d =>
      if d.id = id then
        { d with status := status, document_type := dt, confidence := c }
      else d) }
  else none

/-- The JavaScript regex class `\s` (ECMAScript WhiteSpace plus
LineTerminator): tab, line feed, vertical tab, form feed, carriage return,
space, no-break space (U+00A0), ogham space mark (U+1680), the Unicode space
separators U+2000 through U+200A, line separator (U+2028), paragraph separator
(U+2029), narrow no-break space (U+202F), medium mathematical space (U+205F),
ideographic space (U+3000) and zero-width no-break space (U+FEFF). -/
def isJsWhitespace (c : Char) : Bool :=
  c = ' ' || c = '\t' || c = '\n' || c = '\r' || c.toNat = 11 || c.toNat = 12
    || c.toNat = 0xa0 || c.toNat = 0x1680
    || (0x2000 ≤ c.toNat && c.toNat ≤ 0x200a)
    || c.toNat = 0x2028 || c.toNat = 0x2029 || c.toNat = 0x202f
    || c.toNat = 0x205f || c.toNat = 0x3000 || c.toNat = 0xfeff

/-- The transform `file.originalname.replace` with `/\s+/g` and an underscore
(`app.js` line 33): each maximal
run of whitespace becomes a single underscore.  The boolean tracks whether the
previous character was part of a whitespace run. -/
def replaceWsRuns : Bool → List Char → List Char
  | _, [] => []
  | inRun, c :: cs =>
    if isJsWhitespace c then
      if inRun then replaceWsRuns true cs
      else '_' :: replaceWsRuns true cs
    else c :: replaceWsRuns false cs

/-- The multer `diskStorage.filename` callback (`app.js` line 33):
`Date.now() + '_' + file.originalname.replace(/\s+/g, '_')`. -/
def storedFilename (now : Nat) (originalname : String) : String :=
  toString now ++ "_" ++ String.mk (replaceWsRuns false originalname.data)

/-- The `UPLOAD_DIR` constant (`app.js` line 28), as an abstract directory
name. -/
def UPLOAD_DIR : String := "uploads"

/-- The full local path multer writes the uploaded file to (`req.file.path`). -/
def storedPath (now : Nat) (originalname : String) : String :=
  UPLOAD_DIR ++ "/" ++ storedFilename now originalname

/-- The part of the process environment the upload flow reads
(`process.env.AZURE_STORAGE_CONNECTION_STRING`, `app.js` line 75). -/
structure Env where
  azureStorageConnectionString : Option String
deriving Repr, DecidableEq

deriving instance DecidableEq for Except

/-- Outcomes of the external calls one upload request makes: the blob upload
(`azureBlob.uploadLocalFile`, returning a remote URL or throwing), whether each
db write throws, and the analyzer call (`analyzer.analyze`, returning an
`Analysis` or throwing).  These services are not in the sources, so their
behaviour enters the model as parameters of the request. -/
structure Outcomes where
  blobUpload : Except Unit String
  insertOk : Bool
  analyze : Except Unit Analysis
  saveFieldsOk : Bool
  updateOk : Bool
deriving Repr, DecidableEq

/-- The JSON body of a `POST /upload` response: either
`{success:true, documentId, analysis}` or `{success:false, error}`. -/
inductive UploadResponse where
  | ok (documentId : String) (analysis : Analysis)
  | err (error : String)
deriving Repr, DecidableEq

/-- Everything a `POST /upload` request produces: the HTTP status code, the
JSON body, the resulting store and the resulting set of files on disk. -/
structure UploadResult where
  code : Nat
  resp : UploadResponse
  store : Store
  disk : List String
deriving Repr, DecidableEq

/-- The file part of the multipart request, as sent by the client. -/
structure ClientFile where
  originalname : String
deriving Repr, DecidableEq

/-- The `blobUrl` value after lines 73–83 of `app.js`: starts as the local
path; when the
connection string is set, the blob upload is attempted and its result replaces
the local path, but a blob-upload failure is caught and the local path kept. -/
def resolveBlobUrl (env : Env) (out : Outcomes) (filepath : String) : String :=
  if env.azureStorageConnectionString.isSome then
    match out.blobUpload with
    | .ok remoteUrl => remoteUrl
    | .error _ => filepath
  else filepath

/-- The `POST /upload` route (`app.js` lines 66–99), including the multer
stage that writes the file to disk before the handler body runs.  `freshId` is
the value `uuidv4()` returns, `now` the value `Date.now()` returns. -/
def postUpload (env : Env) (out : Outcomes) (freshId : String) (now : Nat)
    (file : Option ClientFile) (s : Store) (disk : List String) :
    UploadResult :=
  match file with
  | none => ⟨400, .err "no file uploaded", s, disk⟩
  | some f =>
    let filepath := storedPath now f.originalname
    let disk1 := disk ++ [filepath]
    let blobUrl := resolveBlobUrl env out filepath
    if !out.insertOk then ⟨500, .err "upload failed", s, disk1⟩
    else
      match insertDocument s
          ⟨freshId, f.originalname, blobUrl, "processing", none, none⟩ with
      | none => ⟨500, .err "upload failed", s, disk1⟩
      | some s1 =>
        match out.analyze with
        | .error _ => ⟨500, .err "upload failed", s1, disk1⟩
        | .ok analysis =>
          if !out.saveFieldsOk then ⟨500, .err "upload failed", s1, disk1⟩
          else
            let s2 := saveExtractedFields s1 freshId (analysis.fields.getD [])
            if !out.updateOk then ⟨500, .err "upload failed", s2, disk1⟩
            else
              match updateDocumentStatus s2 freshId "processed"
                  (jsOrNullStr analysis.documentType)
                  (jsOrNullNum analysis.confidence) with
              | none => ⟨500, .err "upload failed", s2, disk1⟩
              | some s3 => ⟨200, .ok freshId analysis, s3, disk1⟩

/-- The JSON body of a `GET /document/:id` response. -/
inductive GetDocResponse where
  | ok (document : Document) (fields : List ExtractedField)
  | err (error : String)
deriving Repr, DecidableEq

/-- Outcomes of the store reads one `GET /document/:id` request makes. -/
structure GetOutcomes where
  getDocOk : Bool
  getFieldsOk : Bool
deriving Repr, DecidableEq

/-- The `GET /document/:id` route (`app.js` lines 53–64). -/
def getDocumentRoute (out : GetOutcomes) (id : String) (s : Store) :
    Nat × GetDocResponse :=
  if !out.getDocOk then (500, .err "db error")
  else
    match getDocument s id with
    | none => (404, .err "not found")
    | some doc =>
      if !out.getFieldsOk then (500, .err "db error")
      else (200, .ok doc (getFields s id))

/-! ## Helper lemmas -/

/-- Running `find?` over a list ending in the first matching element returns
it. -/
theorem find_eq_last {l : List Document} {d : Document} {p : Document → Bool}
    (hl : ∀ x ∈ l, p x = false) (hd : p d = true) :
    (l ++ [d]).find? p = some d := by
  induction l with
  | nil => simp [List.find?, hd]
  | cons x xs ih =>
    have hx : p x = false := hl x (by simp)
    simp only [List.cons_append, List.find?, hx]
    exact ih fun y hy => hl y (by simp [hy])

/-- Tagging a field list with an id and reading the rows for that id back
recovers the list. -/
theorem fields_tag_untag (id : String) (l : List ExtractedField) :
    (((l.map (fun f => (id, f))).filter (fun p => p.1 = id)).map
      (fun p => p.2)) = l := by
  induction l with
  | nil => rfl
  | cons f fs ih => simpa using ih

/-- Filtering for an id that no row carries gives the empty list. -/
theorem filter_id_eq_nil {l : List (String × ExtractedField)} {id : String}
    (h : ∀ p ∈ l, p.1 ≠ id) :
    l.filter (fun p => p.1 = id) = [] := by
  induction l with
  | nil => rfl
  | cons x xs ih =>
    have hx : ¬(x.1 = id) := h x (by simp)
    rw [List.filter_cons, if_neg (by simpa using hx)]
    exact ih fun y hy => h y (by simp [hy])

/-- Applying `insertDocument` on a fresh id appends the row. -/
theorem insertDocument_of_fresh (s : Store) (d : Document)
    (h : s.documents.any (fun x => x.id = d.id) = false) :
    insertDocument s d = some { s with documents := s.documents ++ [d] } := by
  simp [insertDocument, h]

/-- Applying `insertDocument` on an id that already exists fails. -/
theorem insertDocument_of_dup (s : Store) (d : Document)
    (h : s.documents.any (fun x => x.id = d.id) = true) :
    insertDocument s d = none := by
  simp [insertDocument, h]

/-- Applying `updateDocumentStatus` on an existing row rewrites that row in
place. -/
theorem updateDocumentStatus_of_mem (s : Store) (id status : String)
    (dt : Option String) (c : Option Rat)
    (h : s.documents.any (fun d => d.id = id) = true) :
    updateDocumentStatus s id status dt c =
      some { s with documents := s.documents.map (fun d =>
        if d.id = id then
          { d with status := status, document_type := dt, confidence := c }
        else d) } := by
  simp [updateDocumentStatus, h]

/-- Reading `getFields` after appending rows tagged with `id` splits into the
old rows
for `id` followed by the appended fields. -/
theorem getFields_append_tagged (docs : List Document)
    (flds : List (String × ExtractedField)) (id : String)
    (l : List ExtractedField) :
    getFields ⟨docs, flds ++ l.map (fun f => (id, f))⟩ id =
      getFields ⟨docs, flds⟩ id ++ l := by
  unfold getFields
  rw [List.filter_append, List.map_append, fields_tag_untag]

/-- Explicit shape of a fully successful `POST /upload`: the response is 200
with the fresh id and the analysis, the store gains the new row (updated to
`processed` with the JS-defaulted type/confidence) and the tagged field rows,
and the file is on disk. -/
theorem postUpload_success (env : Env) (out : Outcomes) (freshId : String)
    (now : Nat) (f : ClientFile) (s : Store) (disk : List String)
    (a : Analysis)
    (hins : out.insertOk = true)
    (hfresh : s.documents.any (fun x => x.id = freshId) = false)
    (hana : out.analyze = .ok a)
    (hsave : out.saveFieldsOk = true)
    (hupd : out.updateOk = true) :
    postUpload env out freshId now (some f) s disk =
      { code := 200, resp := .ok freshId a,
        store :=
          { documents := (s.documents ++
              [({ id := freshId, filename := f.originalname,
                  blob_url := resolveBlobUrl env out
                    (storedPath now f.originalname),
                  status := "processing", document_type := none,
                  confidence := none } : Document)]).map (fun d =>
              if d.id = freshId then
                { d with status := "processed",
                         document_type := jsOrNullStr a.documentType,
                         confidence := jsOrNullNum a.confidence }
              else d),
            fields := s.fields ++
              (a.fields.getD []).map (fun fl => (freshId, fl)) },
        disk := disk ++ [storedPath now f.originalname] } := by
  simp [postUpload, hins, hana, hsave, hupd, insertDocument, hfresh,
    saveExtractedFields, updateDocumentStatus, List.any_append]

/-- A `POST /upload` that answered 200 had every step succeed: the insert did
not throw, the fresh id was indeed fresh, the analyzer returned a result, and
neither the field save nor the status update threw. -/
theorem postUpload_code200 (env : Env) (out : Outcomes) (freshId : String)
    (now : Nat) (f : ClientFile) (s : Store) (disk : List String)
    (h : (postUpload env out freshId now (some f) s disk).code = 200) :
    out.insertOk = true ∧
      s.documents.any (fun x => x.id = freshId) = false ∧
      (∃ a, out.analyze = .ok a) ∧
      out.saveFieldsOk = true ∧ out.updateOk = true := by
  unfold postUpload at h
  dsimp only at h
  cases hins : out.insertOk
  · rw [hins] at h; simp at h
  · rw [hins] at h
    cases hfresh : s.documents.any (fun x => x.id = freshId)
    · rw [insertDocument_of_fresh _ _ hfresh] at h
      cases hana : out.analyze with
      | error e => rw [hana] at h; simp at h
      | ok a =>
        rw [hana] at h
        cases hsave : out.saveFieldsOk
        · rw [hsave] at h; simp at h
        · rw [hsave] at h
          cases hupd : out.updateOk
          · rw [hupd] at h; simp at h
          · exact ⟨rfl, rfl, ⟨a, rfl⟩, rfl, rfl⟩
    · rw [insertDocument_of_dup _ _ hfresh] at h
      simp at h

/-- Shape of `POST /upload` when the document insert throws: generic 500, no
store change, the file already on disk. -/
theorem postUpload_insert_throw (env : Env) (out : Outcomes) (freshId : String)
    (now : Nat) (f : ClientFile) (s : Store) (disk : List String)
    (hins : out.insertOk = false) :
    postUpload env out freshId now (some f) s disk =
      { code := 500, resp := .err "upload failed", store := s,
        disk := disk ++ [storedPath now f.originalname] } := by
  simp [postUpload, hins]

/-- Shape of `POST /upload` when the generated id already exists, so the
insert fails: generic 500, no store change, the file already on disk. -/
theorem postUpload_dup (env : Env) (out : Outcomes) (freshId : String)
    (now : Nat) (f : ClientFile) (s : Store) (disk : List String)
    (hins : out.insertOk = true)
    (hdup : s.documents.any (fun x => x.id = freshId) = true) :
    postUpload env out freshId now (some f) s disk =
      { code := 500, resp := .err "upload failed", store := s,
        disk := disk ++ [storedPath now f.originalname] } := by
  simp [postUpload, hins, insertDocument, hdup]

/-- Shape of `POST /upload` when the analyzer throws: generic 500, the
`processing` row already inserted and kept, the file on disk. -/
theorem postUpload_analyze_throw (env : Env) (out : Outcomes)
    (freshId : String) (now : Nat) (f : ClientFile) (s : Store)
    (disk : List String) (e : Unit)
    (hins : out.insertOk = true)
    (hfresh : s.documents.any (fun x => x.id = freshId) = false)
    (hana : out.analyze = .error e) :
    postUpload env out freshId now (some f) s disk =
      { code := 500, resp := .err "upload failed",
        store :=
          { documents := s.documents ++
              [({ id := freshId, filename := f.originalname,
                  blob_url := resolveBlobUrl env out
                    (storedPath now f.originalname),
                  status := "processing", document_type := none,
                  confidence := none } : Document)],
            fields := s.fields },
        disk := disk ++ [storedPath now f.originalname] } := by
  simp [postUpload, hins, hana, insertDocument, hfresh]

/-- Shape of `POST /upload` when saving the extracted fields throws: generic
500, the `processing` row kept, no field rows written, the file on disk. -/
theorem postUpload_save_throw (env : Env) (out : Outcomes) (freshId : String)
    (now : Nat) (f : ClientFile) (s : Store) (disk : List String)
    (a : Analysis)
    (hins : out.insertOk = true)
    (hfresh : s.documents.any (fun x => x.id = freshId) = false)
    (hana : out.analyze = .ok a)
    (hsave : out.saveFieldsOk = false) :
    postUpload env out freshId now (some f) s disk =
      { code := 500, resp := .err "upload failed",
        store :=
          { documents := s.documents ++
              [({ id := freshId, filename := f.originalname,
                  blob_url := resolveBlobUrl env out
                    (storedPath now f.originalname),
                  status := "processing", document_type := none,
                  confidence := none } : Document)],
            fields := s.fields },
        disk := disk ++ [storedPath now f.originalname] } := by
  simp [postUpload, hins, hana, hsave, insertDocument, hfresh]

/-- Shape of `POST /upload` when the final status update throws: generic 500,
the `processing` row and the field rows kept, the file on disk. -/
theorem postUpload_update_throw (env : Env) (out : Outcomes) (freshId : String)
    (now : Nat) (f : ClientFile) (s : Store) (disk : List String)
    (a : Analysis)
    (hins : out.insertOk = true)
    (hfresh : s.documents.any (fun x => x.id = freshId) = false)
    (hana : out.analyze = .ok a)
    (hsave : out.saveFieldsOk = true)
    (hupd : out.updateOk = false) :
    postUpload env out freshId now (some f) s disk =
      { code := 500, resp := .err "upload failed",
        store :=
          { documents := s.documents ++
              [({ id := freshId, filename := f.originalname,
                  blob_url := resolveBlobUrl env out
                    (storedPath now f.originalname),
                  status := "processing", document_type := none,
                  confidence := none } : Document)],
            fields := s.fields ++
              (a.fields.getD []).map (fun fl => (freshId, fl)) },
        disk := disk ++ [storedPath now f.originalname] } := by
  simp [postUpload, hins, hana, hsave, hupd, insertDocument, hfresh,
    saveExtractedFields]

/-- A document of the `l ++ [d0]` table with `d0` still `processing` that is
`processed` was already in `l`. -/
theorem mem_append_processing {l : List Document} {d0 d : Document}
    (hmem : d ∈ l ++ [d0]) (hd0 : d0.status = "processing")
    (hd : d.status = "processed") : d ∈ l := by
  rcases List.mem_append.mp hmem with h | h
  · exact h
  · exfalso
    rw [List.mem_singleton.mp h, hd0] at hd
    exact absurd hd (by decide)

/-- Reading back the store a successful upload leaves behind: the fresh row is
found (updated in place to `processed`), and the field rows for the fresh id
are exactly the ones the upload appended. -/
theorem getDocumentRoute_after_success (s : Store) (freshId : String)
    (d0 : Document) (hd0 : d0.id = freshId) (dt : Option String)
    (c : Option Rat)
    (hfresh : s.documents.any (fun x => x.id = freshId) = false)
    (hfld : ∀ p ∈ s.fields, p.1 ≠ freshId)
    (l : List ExtractedField) :
    getDocumentRoute ⟨true, true⟩ freshId
      ⟨(s.documents ++ [d0]).map (fun d =>
          if d.id = freshId then
            { d with status := "processed", document_type := dt,
                     confidence := c }
          else d),
        s.fields ++ l.map (fun fl => (freshId, fl))⟩ =
      (200, .ok { d0 with status := "processed", document_type := dt,
                          confidence := c } l) := by
  have hx : ∀ x ∈ s.documents, ¬(x.id = freshId) := by
    simpa [List.any_eq_false] using hfresh
  have hfind :
      getDocument
        ⟨(s.documents ++ [d0]).map (fun d =>
            if d.id = freshId then
              { d with status := "processed", document_type := dt,
                       confidence := c }
            else d),
          s.fields ++ l.map (fun fl => (freshId, fl))⟩ freshId =
        some { d0 with status := "processed", document_type := dt,
                       confidence := c } := by
    unfold getDocument
    dsimp only
    rw [List.map_append]
    have hl2 : ∀ y ∈ s.documents.map (fun d =>
        if d.id = freshId then
          { d with status := "processed", document_type := dt,
                   confidence := c }
        else d), (fun d : Document => decide (d.id = freshId)) y = false := by
      intro y hy
      obtain ⟨x, hxmem, rfl⟩ := List.mem_map.mp hy
      have hne := hx x hxmem
      simp [hne]
    have hd2 : (fun d : Document => decide (d.id = freshId))
        (if d0.id = freshId then
          { d0 with status := "processed", document_type := dt,
                    confidence := c }
        else d0) = true := by simp [hd0]
    have := find_eq_last hl2 hd2
    simpa [hd0] using this
  have hflds :
      getFields
        ⟨(s.documents ++ [d0]).map (fun d =>
            if d.id = freshId then
              { d with status := "processed", document_type := dt,
                       confidence := c }
            else d),
          s.fields ++ l.map (fun fl => (freshId, fl))⟩ freshId = l := by
    rw [getFields_append_tagged]
    have : getFields
        ⟨(s.documents ++ [d0]).map (fun d =>
            if d.id = freshId then
              { d with status := "processed", document_type := dt,
                       confidence := c }
            else d), s.fields⟩ freshId = [] := by
      unfold getFields
      rw [filter_id_eq_nil hfld]
      rfl
    rw [this]
    rfl
  unfold getDocumentRoute
  rw [hfind, hflds]
  rfl

/-! ## Claim theorems -/

/-- C1: a successful `POST /upload` (file part present, no step failing, 200
response) returns a `documentId` under which `GET /document/:id`, run on the
resulting state with succeeding reads, finds a document with status
`processed` together with exactly the extracted fields the upload saved for
that id. -/
theorem upload_then_get (env : Env) (out : Outcomes) (freshId : String)
    (now : Nat) (f : ClientFile) (s : Store) (disk : List String)
    (hfld : ∀ p ∈ s.fields, p.1 ≠ freshId)
    (h200 : (postUpload env out freshId now (some f) s disk).code = 200) :
    ∃ a, out.analyze = .ok a ∧
      (postUpload env out freshId now (some f) s disk).resp = .ok freshId a ∧
      ∃ d, getDocumentRoute ⟨true, true⟩ freshId
            (postUpload env out freshId now (some f) s disk).store =
          (200, .ok d (a.fields.getD [])) ∧
        d.id = freshId ∧ d.status = "processed" := by
  obtain ⟨hins, hfresh, ⟨a, hana⟩, hsave, hupd⟩ :=
    postUpload_code200 env out freshId now f s disk h200
  rw [postUpload_success env out freshId now f s disk a hins hfresh hana hsave
    hupd]
  refine ⟨a, hana, rfl, ?_⟩
  refine ⟨{ id := freshId, filename := f.originalname,
            blob_url := resolveBlobUrl env out (storedPath now f.originalname),
            status := "processed",
            document_type := jsOrNullStr a.documentType,
            confidence := jsOrNullNum a.confidence }, ?_, rfl, rfl⟩
  exact getDocumentRoute_after_success s freshId
    { id := freshId, filename := f.originalname,
      blob_url := resolveBlobUrl env out (storedPath now f.originalname),
      status := "processing", document_type := none, confidence := none }
    rfl (jsOrNullStr a.documentType) (jsOrNullNum a.confidence) hfresh hfld
    (a.fields.getD [])

/-- Witness for C1: a concrete successful upload into the empty store, read
back immediately: status is `processed` and the saved field comes back. -/
theorem upload_then_get_witness :
    ∃ a, (⟨.ok "remote", true,
            .ok ⟨some "invoice", some 1, some [⟨"total", "7"⟩]⟩, true,
            true⟩ : Outcomes).analyze = .ok a ∧
      (postUpload ⟨none⟩
          ⟨.ok "remote", true,
            .ok ⟨some "invoice", some 1, some [⟨"total", "7"⟩]⟩, true, true⟩
          "id1" 5 (some ⟨"a.pdf"⟩) ⟨[], []⟩ []).resp = .ok "id1" a ∧
      ∃ d, getDocumentRoute ⟨true, true⟩ "id1"
            (postUpload ⟨none⟩
              ⟨.ok "remote", true,
                .ok ⟨some "invoice", some 1, some [⟨"total", "7"⟩]⟩, true,
                true⟩
              "id1" 5 (some ⟨"a.pdf"⟩) ⟨[], []⟩ []).store =
          (200, .ok d (a.fields.getD [])) ∧
        d.id = "id1" ∧ d.status = "processed" :=
  upload_then_get ⟨none⟩
    ⟨.ok "remote", true, .ok ⟨some "invoice", some 1, some [⟨"total", "7"⟩]⟩,
      true, true⟩
    "id1" 5 ⟨"a.pdf"⟩ ⟨[], []⟩ [] (by simp) (by decide)

/-- C5: a `POST /upload` whose multipart body has no file part is answered
400 `{success:false, error:"no file uploaded"}`, whatever the environment,
the external-call outcomes, the generated id, the clock, and the state. -/
theorem upload_no_file_is_400 (env : Env) (out : Outcomes) (freshId : String)
    (now : Nat) (s : Store) (disk : List String) :
    postUpload env out freshId now none s disk =
      ⟨400, .err "no file uploaded", s, disk⟩ := rfl

/-- C10: a `POST /upload` rejected for a missing file part touches no state:
the store and the disk are returned unchanged, and the result does not depend
on the generated id, the clock, the environment or any external-call outcome
(none of those are consulted before the early return). -/
theorem upload_no_file_no_state (env env2 : Env) (out out2 : Outcomes)
    (freshId freshId2 : String) (now now2 : Nat) (s : Store)
    (disk : List String) :
    (postUpload env out freshId now none s disk).store = s ∧
      (postUpload env out freshId now none s disk).disk = disk ∧
      postUpload env out freshId now none s disk =
        postUpload env2 out2 freshId2 now2 none s disk :=
  ⟨rfl, rfl, rfl⟩

/-- C6: `GET /document/:id` answers 500 `db error` when the document read
throws, 404 `not found` when the id is absent, 500 `db error` when the field
read throws, and otherwise 200 with the document and the full (possibly empty)
list of its field rows. -/
theorem getDocumentRoute_contract (out : GetOutcomes) (id : String)
    (s : Store) :
    (out.getDocOk = false →
        getDocumentRoute out id s = (500, .err "db error")) ∧
      (out.getDocOk = true → getDocument s id = none →
        getDocumentRoute out id s = (404, .err "not found")) ∧
      (∀ d, out.getDocOk = true → getDocument s id = some d →
        out.getFieldsOk = false →
        getDocumentRoute out id s = (500, .err "db error")) ∧
      (∀ d, out.getDocOk = true → getDocument s id = some d →
        out.getFieldsOk = true →
        getDocumentRoute out id s = (200, .ok d (getFields s id))) := by
  refine ⟨fun h => by simp [getDocumentRoute, h],
    fun h hnone => by simp [getDocumentRoute, h, hnone],
    fun d h hsome hf => by simp [getDocumentRoute, h, hsome, hf],
    fun d h hsome hf => by simp [getDocumentRoute, h, hsome, hf]⟩

/-- C2: after any single `POST /upload` step (each request is one atomic
transition of the model, matching the single-threaded runtime), every
`processed` document either was already `processed` beforehand or was flipped
by this very request — and in that case the request answered 200 and the
field list of the analyzer for that id was appended to the store in the same step,
so no caller can observe `processed` with the fields still missing. -/
theorem processed_has_fields (env : Env) (out : Outcomes) (freshId : String)
    (now : Nat) (file : Option ClientFile) (s : Store) (disk : List String) :
    ∀ d ∈ (postUpload env out freshId now file s disk).store.documents,
      d.status = "processed" →
      (∃ d0 ∈ s.documents, d0.id = d.id ∧ d0.status = "processed") ∨
      ((postUpload env out freshId now file s disk).code = 200 ∧
        ∃ a, out.analyze = .ok a ∧
          getFields (postUpload env out freshId now file s disk).store d.id =
            getFields s d.id ++ (a.fields.getD [])) := by
  intro d hd hstat
  cases file with
  | none => exact Or.inl ⟨d, hd, rfl, hstat⟩
  | some f =>
    cases hins : out.insertOk with
    | false =>
      rw [postUpload_insert_throw env out freshId now f s disk hins] at hd
      exact Or.inl ⟨d, hd, rfl, hstat⟩
    | true =>
      cases hfresh : s.documents.any (fun x => x.id = freshId) with
      | true =>
        rw [postUpload_dup env out freshId now f s disk hins hfresh] at hd
        exact Or.inl ⟨d, hd, rfl, hstat⟩
      | false =>
        cases hana : out.analyze with
        | error e =>
          rw [postUpload_analyze_throw env out freshId now f s disk e hins
            hfresh hana] at hd
          exact Or.inl ⟨d, mem_append_processing hd rfl hstat, rfl, hstat⟩
        | ok a =>
          cases hsave : out.saveFieldsOk with
          | false =>
            rw [postUpload_save_throw env out freshId now f s disk a hins
              hfresh hana hsave] at hd
            exact Or.inl ⟨d, mem_append_processing hd rfl hstat, rfl, hstat⟩
          | true =>
            cases hupd : out.updateOk with
            | false =>
              rw [postUpload_update_throw env out freshId now f s disk a hins
                hfresh hana hsave hupd] at hd
              exact Or.inl ⟨d, mem_append_processing hd rfl hstat, rfl, hstat⟩
            | true =>
              rw [postUpload_success env out freshId now f s disk a hins
                hfresh hana hsave hupd] at hd ⊢
              rw [List.map_append] at hd
              rcases List.mem_append.mp hd with h | h
              · obtain ⟨x, hx, rfl⟩ := List.mem_map.mp h
                have hall : ∀ x ∈ s.documents, ¬(x.id = freshId) := by
                  simpa [List.any_eq_false] using hfresh
                have hne := hall x hx
                rw [if_neg hne] at hstat ⊢
                exact Or.inl ⟨x, hx, rfl, hstat⟩
              · rw [List.map_singleton, List.mem_singleton] at h
                subst h
                refine Or.inr ⟨rfl, a, rfl, ?_⟩
                rw [if_pos rfl]
                rw [getFields_append_tagged]
                rfl

/-- Witness for C2: a concrete successful upload into the empty store leaves
one `processed` document, and its saved field row is in the same state. -/
theorem processed_has_fields_witness :
    (∃ d0 ∈ (⟨[], []⟩ : Store).documents, d0.id = "id1" ∧
        d0.status = "processed") ∨
      ((postUpload ⟨none⟩
          ⟨.ok "remote", true,
            .ok ⟨some "invoice", some 1, some [⟨"total", "7"⟩]⟩, true, true⟩
          "id1" 5 (some ⟨"a.pdf"⟩) ⟨[], []⟩ []).code = 200 ∧
        ∃ a, (⟨.ok "remote", true,
            .ok ⟨some "invoice", some 1, some [⟨"total", "7"⟩]⟩, true,
            true⟩ : Outcomes).analyze = .ok a ∧
          getFields (postUpload ⟨none⟩
              ⟨.ok "remote", true,
                .ok ⟨some "invoice", some 1, some [⟨"total", "7"⟩]⟩, true,
                true⟩
              "id1" 5 (some ⟨"a.pdf"⟩) ⟨[], []⟩ []).store "id1" =
            getFields ⟨[], []⟩ "id1" ++ (a.fields.getD [])) :=
  processed_has_fields ⟨none⟩
    ⟨.ok "remote", true, .ok ⟨some "invoice", some 1, some [⟨"total", "7"⟩]⟩,
      true, true⟩
    "id1" 5 (some ⟨"a.pdf"⟩) ⟨[], []⟩ []
    ⟨"id1", "a.pdf", storedPath 5 "a.pdf", "processed", some "invoice",
      some 1⟩
    (by decide) rfl

/-- C3: a `POST /upload` with a file part that hits a document-insert
failure, an analyzer failure, a field-save failure or a status-update failure
answers 500 `{success:false, error:"upload failed"}`; the uploaded file stays
on disk, nothing already in the store is removed or changed (both tables only
ever grow within the request), and when the insert step had succeeded the
`processing` row is left in place — no rollback or cleanup happens. -/
theorem upload_failure_no_rollback (env : Env) (out : Outcomes)
    (freshId : String) (now : Nat) (f : ClientFile) (s : Store)
    (disk : List String)
    (hfail : out.insertOk = false ∨
      s.documents.any (fun x => x.id = freshId) = true ∨
      (∃ e, out.analyze = .error e) ∨
      out.saveFieldsOk = false ∨ out.updateOk = false) :
    (postUpload env out freshId now (some f) s disk).code = 500 ∧
      (postUpload env out freshId now (some f) s disk).resp =
        .err "upload failed" ∧
      (postUpload env out freshId now (some f) s disk).disk =
        disk ++ [storedPath now f.originalname] ∧
      (∃ t, (postUpload env out freshId now (some f) s disk).store.documents =
        s.documents ++ t) ∧
      (∃ t, (postUpload env out freshId now (some f) s disk).store.fields =
        s.fields ++ t) ∧
      (out.insertOk = true →
        s.documents.any (fun x => x.id = freshId) = false →
        ∃ d ∈ (postUpload env out freshId now
            (some f) s disk).store.documents,
          d.id = freshId ∧ d.status = "processing") := by
  cases hins : out.insertOk with
  | false =>
    rw [postUpload_insert_throw env out freshId now f s disk hins]
    exact ⟨rfl, rfl, rfl, ⟨[], by simp⟩, ⟨[], by simp⟩,
      fun h2 _ => absurd h2 (by simp)⟩
  | true =>
    cases hfresh : s.documents.any (fun x => x.id = freshId) with
    | true =>
      rw [postUpload_dup env out freshId now f s disk hins hfresh]
      exact ⟨rfl, rfl, rfl, ⟨[], by simp⟩, ⟨[], by simp⟩,
        fun _ h2 => absurd h2 (by simp)⟩
    | false =>
      cases hana : out.analyze with
      | error e =>
        rw [postUpload_analyze_throw env out freshId now f s disk e hins
          hfresh hana]
        exact ⟨rfl, rfl, rfl, ⟨_, rfl⟩, ⟨[], by simp⟩,
          fun _ _ =>
            ⟨{ id := freshId, filename := f.originalname,
               blob_url := resolveBlobUrl env out
                 (storedPath now f.originalname),
               status := "processing", document_type := none,
               confidence := none }, by simp, rfl, rfl⟩⟩
      | ok a =>
        cases hsave : out.saveFieldsOk with
        | false =>
          rw [postUpload_save_throw env out freshId now f s disk a hins
            hfresh hana hsave]
          exact ⟨rfl, rfl, rfl, ⟨_, rfl⟩, ⟨[], by simp⟩,
            fun _ _ =>
              ⟨{ id := freshId, filename := f.originalname,
                 blob_url := resolveBlobUrl env out
                   (storedPath now f.originalname),
                 status := "processing", document_type := none,
                 confidence := none }, by simp, rfl, rfl⟩⟩
        | true =>
          cases hupd : out.updateOk with
          | false =>
            rw [postUpload_update_throw env out freshId now f s disk a hins
              hfresh hana hsave hupd]
            exact ⟨rfl, rfl, rfl, ⟨_, rfl⟩, ⟨_, rfl⟩,
              fun _ _ =>
              ⟨{ id := freshId, filename := f.originalname,
                 blob_url := resolveBlobUrl env out
                   (storedPath now f.originalname),
                 status := "processing", document_type := none,
                 confidence := none }, by simp, rfl, rfl⟩⟩
          | true =>
            exfalso
            rcases hfail with hf | hf | ⟨e, hf⟩ | hf | hf
            · rw [hins] at hf; exact absurd hf (by decide)
            · rw [hfresh] at hf; exact absurd hf (by decide)
            · rw [hana] at hf; exact absurd hf (by simp)
            · rw [hsave] at hf; exact absurd hf (by decide)
            · rw [hupd] at hf; exact absurd hf (by decide)

/-- Witness for C3: a concrete upload whose analyzer throws is answered 500
with the file kept on disk and the `processing` row left in the store. -/
theorem upload_failure_no_rollback_witness :
    (postUpload ⟨none⟩ ⟨.ok "remote", true, .error (), true, true⟩
        "id1" 5 (some ⟨"a.pdf"⟩) ⟨[], []⟩ []).code = 500 ∧
      (postUpload ⟨none⟩ ⟨.ok "remote", true, .error (), true, true⟩
          "id1" 5 (some ⟨"a.pdf"⟩) ⟨[], []⟩ []).resp =
        .err "upload failed" ∧
      (postUpload ⟨none⟩ ⟨.ok "remote", true, .error (), true, true⟩
          "id1" 5 (some ⟨"a.pdf"⟩) ⟨[], []⟩ []).disk =
        [] ++ [storedPath 5 "a.pdf"] ∧
      (∃ t, (postUpload ⟨none⟩ ⟨.ok "remote", true, .error (), true, true⟩
          "id1" 5 (some ⟨"a.pdf"⟩) ⟨[], []⟩ []).store.documents =
        ([] : List Document) ++ t) ∧
      (∃ t, (postUpload ⟨none⟩ ⟨.ok "remote", true, .error (), true, true⟩
          "id1" 5 (some ⟨"a.pdf"⟩) ⟨[], []⟩ []).store.fields =
        ([] : List (String × ExtractedField)) ++ t) ∧
      ((⟨.ok "remote", true, .error (), true, true⟩ : Outcomes).insertOk =
          true →
        (⟨[], []⟩ : Store).documents.any (fun x => x.id = "id1") = false →
        ∃ d ∈ (postUpload ⟨none⟩ ⟨.ok "remote", true, .error (), true, true⟩
            "id1" 5 (some ⟨"a.pdf"⟩) ⟨[], []⟩ []).store.documents,
          d.id = "id1" ∧ d.status = "processing") :=
  upload_failure_no_rollback ⟨none⟩ ⟨.ok "remote", true, .error (), true, true⟩
    "id1" 5 ⟨"a.pdf"⟩ ⟨[], []⟩ [] (Or.inr (Or.inr (Or.inl ⟨(), rfl⟩)))

/-- C4: when cloud storage is configured but the blob upload throws, the
failure is caught and the flow continues with `blob_url` equal to the local
file path; with the remaining steps succeeding the request still answers 200
— the storage failure alone never fails the request. -/
theorem blob_failure_recovered (env : Env) (out : Outcomes) (freshId : String)
    (now : Nat) (f : ClientFile) (s : Store) (disk : List String)
    (a : Analysis)
    (hconf : env.azureStorageConnectionString.isSome = true)
    (hblob : out.blobUpload = .error ())
    (hins : out.insertOk = true)
    (hfresh : s.documents.any (fun x => x.id = freshId) = false)
    (hana : out.analyze = .ok a)
    (hsave : out.saveFieldsOk = true)
    (hupd : out.updateOk = true) :
    (postUpload env out freshId now (some f) s disk).code = 200 ∧
      ∃ d ∈ (postUpload env out freshId now (some f) s disk).store.documents,
        d.id = freshId ∧ d.blob_url = storedPath now f.originalname := by
  rw [postUpload_success env out freshId now f s disk a hins hfresh hana hsave
    hupd]
  have hres : resolveBlobUrl env out (storedPath now f.originalname) =
      storedPath now f.originalname := by
    simp [resolveBlobUrl, hconf, hblob]
  refine ⟨rfl,
    ⟨{ id := freshId, filename := f.originalname,
       blob_url := resolveBlobUrl env out (storedPath now f.originalname),
       status := "processed", document_type := jsOrNullStr a.documentType,
       confidence := jsOrNullNum a.confidence }, ?_, rfl, hres⟩⟩
  rw [List.map_append, List.map_singleton]
  exact List.mem_append_right _ (by simp)

/-- Witness for C4: a concrete upload with a connection string configured and
the blob upload failing still answers 200, and the `blob_url` of the stored row is
the local `uploads` path of the file. -/
theorem blob_failure_recovered_witness :
    (postUpload ⟨some "cs"⟩ ⟨.error (), true, .ok ⟨none, none, none⟩, true,
        true⟩ "id1" 5 (some ⟨"a.pdf"⟩) ⟨[], []⟩ []).code = 200 ∧
      ∃ d ∈ (postUpload ⟨some "cs"⟩ ⟨.error (), true, .ok ⟨none, none, none⟩,
          true, true⟩ "id1" 5 (some ⟨"a.pdf"⟩) ⟨[], []⟩ []).store.documents,
        d.id = "id1" ∧ d.blob_url = storedPath 5 "a.pdf" :=
  blob_failure_recovered ⟨some "cs"⟩
    ⟨.error (), true, .ok ⟨none, none, none⟩, true, true⟩ "id1" 5 ⟨"a.pdf"⟩
    ⟨[], []⟩ [] ⟨none, none, none⟩ rfl rfl rfl rfl rfl rfl rfl

/-- The success-path row update leaves a table untouched when no row carries
the fresh id. -/
theorem map_update_id {l : List Document} {freshId : String}
    (dt : Option String) (c : Option Rat)
    (h : ∀ x ∈ l, ¬(x.id = freshId)) :
    l.map (fun d => if d.id = freshId then
        { d with status := "processed", document_type := dt, confidence := c }
      else d) = l := by
  induction l with
  | nil => rfl
  | cons x xs ih =>
    have hx := h x (by simp)
    rw [List.map_cons, if_neg hx, ih fun y hy => h y (by simp [hy])]

/-- No whitespace survives the `replace(/\s+/g, '_')` transform. -/
theorem replaceWsRuns_no_ws (b : Bool) (l : List Char) :
    ∀ c ∈ replaceWsRuns b l, isJsWhitespace c = false := by
  induction l generalizing b with
  | nil => intro c hc; simp [replaceWsRuns] at hc
  | cons x xs ih =>
    intro c hc
    simp only [replaceWsRuns] at hc
    by_cases hx : isJsWhitespace x = true
    · rw [if_pos hx] at hc
      cases b with
      | true =>
        rw [if_pos rfl] at hc
        exact ih true c hc
      | false =>
        rw [if_neg (by decide)] at hc
        rcases List.mem_cons.mp hc with h | h
        · subst h; decide
        · exact ih true c h
    · rw [if_neg hx] at hc
      rcases List.mem_cons.mp hc with h | h
      · subst h; simpa using hx
      · exact ih false c h

/-- Whatever the outcomes, a `POST /upload` with a file part writes the file
to disk under the transformed name, and only ever appends document rows, each
carrying the fresh id, the unmodified original name as `filename`, and the
resolved blob URL. -/
theorem postUpload_new_rows (env : Env) (out : Outcomes) (freshId : String)
    (now : Nat) (f : ClientFile) (s : Store) (disk : List String) :
    (postUpload env out freshId now (some f) s disk).disk =
        disk ++ [storedPath now f.originalname] ∧
      ∃ t, (postUpload env out freshId now (some f) s disk).store.documents =
          s.documents ++ t ∧
        ∀ d ∈ t, d.id = freshId ∧ d.filename = f.originalname ∧
          d.blob_url = resolveBlobUrl env out (storedPath now f.originalname)
    := by
  cases hins : out.insertOk with
  | false =>
    rw [postUpload_insert_throw env out freshId now f s disk hins]
    exact ⟨rfl, [], by simp, by simp⟩
  | true =>
    cases hfresh : s.documents.any (fun x => x.id = freshId) with
    | true =>
      rw [postUpload_dup env out freshId now f s disk hins hfresh]
      exact ⟨rfl, [], by simp, by simp⟩
    | false =>
      have hall : ∀ x ∈ s.documents, ¬(x.id = freshId) := by
        simpa [List.any_eq_false] using hfresh
      cases hana : out.analyze with
      | error e =>
        rw [postUpload_analyze_throw env out freshId now f s disk e hins
          hfresh hana]
        refine ⟨rfl, _, rfl, ?_⟩
        intro d hd
        rw [List.mem_singleton.mp hd]
        exact ⟨rfl, rfl, rfl⟩
      | ok a =>
        cases hsave : out.saveFieldsOk with
        | false =>
          rw [postUpload_save_throw env out freshId now f s disk a hins
            hfresh hana hsave]
          refine ⟨rfl, _, rfl, ?_⟩
          intro d hd
          rw [List.mem_singleton.mp hd]
          exact ⟨rfl, rfl, rfl⟩
        | true =>
          cases hupd : out.updateOk with
          | false =>
            rw [postUpload_update_throw env out freshId now f s disk a hins
              hfresh hana hsave hupd]
            refine ⟨rfl, _, rfl, ?_⟩
            intro d hd
            rw [List.mem_singleton.mp hd]
            exact ⟨rfl, rfl, rfl⟩
          | true =>
            rw [postUpload_success env out freshId now f s disk a hins hfresh
              hana hsave hupd]
            refine ⟨rfl,
              [{ id := freshId, filename := f.originalname,
                 blob_url := resolveBlobUrl env out
                   (storedPath now f.originalname),
                 status := "processed",
                 document_type := jsOrNullStr a.documentType,
                 confidence := jsOrNullNum a.confidence }], ?_, ?_⟩
            · rw [List.map_append, List.map_singleton,
                map_update_id (jsOrNullStr a.documentType)
                  (jsOrNullNum a.confidence) hall]
              simp
            · intro d hd
              rw [List.mem_singleton.mp hd]
              exact ⟨rfl, rfl, rfl⟩

/-- C7: with no storage connection string configured, the cloud-upload branch
is never taken — the result of the request does not depend on the blob-upload
outcome at all — and every document row the request adds carries the local
filesystem path of the uploaded file as its `blob_url`, never a remote URL. -/
theorem no_cloud_config_local_path (env : Env) (out : Outcomes)
    (b2 : Except Unit String) (freshId : String) (now : Nat) (f : ClientFile)
    (s : Store) (disk : List String)
    (hconf : env.azureStorageConnectionString = none) :
    postUpload env ⟨b2, out.insertOk, out.analyze, out.saveFieldsOk,
        out.updateOk⟩ freshId now (some f) s disk =
      postUpload env out freshId now (some f) s disk ∧
    ∀ d ∈ (postUpload env out freshId now (some f) s disk).store.documents,
      d ∈ s.documents ∨ d.blob_url = storedPath now f.originalname := by
  have hres : ∀ o : Outcomes,
      resolveBlobUrl env o (storedPath now f.originalname) =
        storedPath now f.originalname := by
    intro o; simp [resolveBlobUrl, hconf]
  constructor
  · unfold postUpload
    dsimp only
    rw [hres, hres]
  · obtain ⟨_, t, hdocs, ht⟩ :=
      postUpload_new_rows env out freshId now f s disk
    intro d hd
    rw [hdocs] at hd
    rcases List.mem_append.mp hd with h | h
    · exact Or.inl h
    · exact Or.inr ((ht d h).2.2.trans (hres out))

/-- Witness for C7: a concrete upload with no connection string gives the
same result whatever the blob outcome, and its stored row keeps the local
path. -/
theorem no_cloud_config_local_path_witness :
    postUpload ⟨none⟩ ⟨.error (), true, .ok ⟨none, none, none⟩, true, true⟩
        "id1" 5 (some ⟨"a.pdf"⟩) ⟨[], []⟩ [] =
      postUpload ⟨none⟩ ⟨.ok "remote", true, .ok ⟨none, none, none⟩, true,
        true⟩ "id1" 5 (some ⟨"a.pdf"⟩) ⟨[], []⟩ [] ∧
    ∀ d ∈ (postUpload ⟨none⟩ ⟨.ok "remote", true, .ok ⟨none, none, none⟩,
        true, true⟩ "id1" 5 (some ⟨"a.pdf"⟩) ⟨[], []⟩ []).store.documents,
      d ∈ (⟨[], []⟩ : Store).documents ∨ d.blob_url = storedPath 5 "a.pdf" :=
  no_cloud_config_local_path ⟨none⟩
    ⟨.ok "remote", true, .ok ⟨none, none, none⟩, true, true⟩ (.error ())
    "id1" 5 ⟨"a.pdf"⟩ ⟨[], []⟩ [] rfl

/-- C9: an upload with a file part stores the file on disk under the
timestamp, an underscore, and the original name with every whitespace run
collapsed to an underscore (the transformed part contains no whitespace),
while the document rows the request adds record the unmodified original name
as their `filename`. -/
theorem stored_name_and_metadata (env : Env) (out : Outcomes)
    (freshId : String) (now : Nat) (f : ClientFile) (s : Store)
    (disk : List String) :
    (postUpload env out freshId now (some f) s disk).disk =
        disk ++ [UPLOAD_DIR ++ "/" ++ (toString now ++ "_" ++
          String.mk (replaceWsRuns false f.originalname.data))] ∧
      (∀ c ∈ replaceWsRuns false f.originalname.data,
        isJsWhitespace c = false) ∧
      ∀ d ∈ (postUpload env out freshId now (some f) s disk).store.documents,
        d ∉ s.documents → d.filename = f.originalname := by
  obtain ⟨hdisk, t, hdocs, ht⟩ :=
    postUpload_new_rows env out freshId now f s disk
  refine ⟨hdisk, replaceWsRuns_no_ws false f.originalname.data, ?_⟩
  intro d hd hnot
  rw [hdocs] at hd
  rcases List.mem_append.mp hd with h | h
  · exact absurd h hnot
  · exact (ht d h).2.1

/-- Witness for C9: uploading a file whose name holds an ASCII space run and
a no-break space (U+00A0), at clock 5, stores it with each of those runs
collapsed to one underscore and no whitespace left in the transformed name,
while the document row keeps the unmodified name as `filename`. -/
theorem stored_name_and_metadata_witness :
    (postUpload ⟨none⟩ ⟨.ok "remote", true, .ok ⟨none, none, none⟩, true,
        true⟩ "id1" 5 (some ⟨"my scan\u00A01.pdf"⟩) ⟨[], []⟩ []).disk =
        [] ++ [UPLOAD_DIR ++ "/" ++ (toString 5 ++ "_" ++
          String.mk (replaceWsRuns false ("my scan\u00A01.pdf" : String).data))] ∧
      (∀ c ∈ replaceWsRuns false ("my scan\u00A01.pdf" : String).data,
        isJsWhitespace c = false) ∧
      ∀ d ∈ (postUpload ⟨none⟩ ⟨.ok "remote", true, .ok ⟨none, none, none⟩,
          true, true⟩ "id1" 5
          (some ⟨"my scan\u00A01.pdf"⟩) ⟨[], []⟩ []).store.documents,
        d ∉ (⟨[], []⟩ : Store).documents → d.filename = "my scan\u00A01.pdf" :=
  stored_name_and_metadata ⟨none⟩
    ⟨.ok "remote", true, .ok ⟨none, none, none⟩, true, true⟩ "id1" 5
    ⟨"my scan\u00A01.pdf"⟩ ⟨[], []⟩ []

/-- C8 counterexample: the analyzer result CONTAINS a confidence (the value
0), the upload succeeds (200), yet the persisted row carries `confidence`
null — because `app.js` line 92 writes `analysis.confidence || null` and the
JavaScript `||` also replaces a present-but-falsy value by `null`.  So the
persisted value is NOT null exactly when the analyzer result lacks it. -/
theorem persisted_confidence_counterexample :
    (⟨some "invoice", some 0, some []⟩ : Analysis).confidence = some 0 ∧
      (postUpload ⟨none⟩
          ⟨.ok "remote", true, .ok ⟨some "invoice", some 0, some []⟩, true,
            true⟩ "id1" 5 (some ⟨"a.pdf"⟩) ⟨[], []⟩ []).code = 200 ∧
      getDocument (postUpload ⟨none⟩
          ⟨.ok "remote", true, .ok ⟨some "invoice", some 0, some []⟩, true,
            true⟩ "id1" 5 (some ⟨"a.pdf"⟩) ⟨[], []⟩ []).store "id1" =
        some ⟨"id1", "a.pdf", storedPath 5 "a.pdf", "processed",
          some "invoice", none⟩ := by
  refine ⟨rfl, ?_, ?_⟩ <;> decide

/-- C8 (amended): on a successful upload the row is updated to `processed`,
with `documentType` and `confidence` persisted through JavaScript
`||`-defaulting — null exactly when the analyzer value is absent or falsy
(the empty-string type, the zero confidence), as `jsOrNullStr`/`jsOrNullNum`
spell out — and the persisted field rows for the id are the returned
analyzer list, empty when the result carried none. -/
theorem success_persists_analysis (env : Env) (out : Outcomes)
    (freshId : String) (now : Nat) (f : ClientFile) (s : Store)
    (disk : List String) (a : Analysis)
    (hfld : ∀ p ∈ s.fields, p.1 ≠ freshId)
    (hana : out.analyze = .ok a)
    (h200 : (postUpload env out freshId now (some f) s disk).code = 200) :
    ∃ d ∈ (postUpload env out freshId now (some f) s disk).store.documents,
      d.id = freshId ∧ d.status = "processed" ∧
      d.document_type = jsOrNullStr a.documentType ∧
      d.confidence = jsOrNullNum a.confidence ∧
      getFields (postUpload env out freshId now (some f) s disk).store
        freshId = a.fields.getD [] := by
  obtain ⟨hins, hfresh, ⟨a2, hana2⟩, hsave, hupd⟩ :=
    postUpload_code200 env out freshId now f s disk h200
  rw [hana] at hana2
  obtain rfl : a = a2 := by injection hana2
  rw [postUpload_success env out freshId now f s disk a hins hfresh hana
    hsave hupd]
  refine
    ⟨{ id := freshId, filename := f.originalname,
       blob_url := resolveBlobUrl env out (storedPath now f.originalname),
       status := "processed", document_type := jsOrNullStr a.documentType,
       confidence := jsOrNullNum a.confidence }, ?_, rfl, rfl, rfl, rfl, ?_⟩
  · rw [List.map_append, List.map_singleton]
    exact List.mem_append_right _ (by simp)
  · rw [getFields_append_tagged]
    have hnil : getFields
        ⟨(s.documents ++
            [({ id := freshId, filename := f.originalname,
                blob_url := resolveBlobUrl env out
                  (storedPath now f.originalname),
                status := "processing", document_type := none,
                confidence := none } : Document)]).map (fun d =>
            if d.id = freshId then
              { d with status := "processed",
                       document_type := jsOrNullStr a.documentType,
                       confidence := jsOrNullNum a.confidence }
            else d), s.fields⟩ freshId = [] := by
      unfold getFields
      rw [filter_id_eq_nil hfld]
      rfl
    rw [hnil]
    rfl

/-- Witness for C8 (amended): a concrete successful upload persists a truthy
type and confidence as returned, with the returned field saved. -/
theorem success_persists_analysis_witness :
    ∃ d ∈ (postUpload ⟨none⟩
        ⟨.ok "remote", true,
          .ok ⟨some "invoice", some 1, some [⟨"total", "7"⟩]⟩, true, true⟩
        "id1" 5 (some ⟨"a.pdf"⟩) ⟨[], []⟩ []).store.documents,
      d.id = "id1" ∧ d.status = "processed" ∧
      d.document_type =
        jsOrNullStr (⟨some "invoice", some 1,
          some [⟨"total", "7"⟩]⟩ : Analysis).documentType ∧
      d.confidence =
        jsOrNullNum (⟨some "invoice", some 1,
          some [⟨"total", "7"⟩]⟩ : Analysis).confidence ∧
      getFields (postUpload ⟨none⟩
          ⟨.ok "remote", true,
            .ok ⟨some "invoice", some 1, some [⟨"total", "7"⟩]⟩, true, true⟩
          "id1" 5 (some ⟨"a.pdf"⟩) ⟨[], []⟩ []).store "id1" =
        (⟨some "invoice", some 1,
          some [⟨"total", "7"⟩]⟩ : Analysis).fields.getD [] :=
  success_persists_analysis ⟨none⟩
    ⟨.ok "remote", true, .ok ⟨some "invoice", some 1, some [⟨"total", "7"⟩]⟩,
      true, true⟩
    "id1" 5 ⟨"a.pdf"⟩ ⟨[], []⟩ [] ⟨some "invoice", some 1,
      some [⟨"total", "7"⟩]⟩ (by simp) rfl (by decide)

/-- Witness for C6: a store holding one document with one field row, with both
reads succeeding, is answered 200 with that document and that field list. -/
theorem getDocumentRoute_contract_witness :
    getDocumentRoute ⟨true, true⟩ "d1"
        ⟨[⟨"d1", "a.pdf", "uploads/1_a.pdf", "processed", none, none⟩],
          [("d1", ⟨"total", "7"⟩)]⟩ =
      (200, .ok ⟨"d1", "a.pdf", "uploads/1_a.pdf", "processed", none, none⟩
        [⟨"total", "7"⟩]) :=
  (getDocumentRoute_contract ⟨true, true⟩ "d1"
    ⟨[⟨"d1", "a.pdf", "uploads/1_a.pdf", "processed", none, none⟩],
      [("d1", ⟨"total", "7"⟩)]⟩).2.2.2
    ⟨"d1", "a.pdf", "uploads/1_a.pdf", "processed", none, none⟩ rfl rfl rfl

end ZenAI
